import Mathlib

/-!
Shallow embedding of the qr-gen command line tools: the encoder
(src/main.rs) and the decoder (src/decoder.rs).

Modelling conventions:
* Rust machine integers (i32, u32) are modelled as Int and Nat with the
  machine arithmetic made explicit: the checked_add / checked_mul calls
  return none outside the i32 range (and their unwrap is a panic), a
  plain i32 or u32 operation wraps around two to the 31 or two to the
  32 as in a release build (a debug build panics there instead; the
  theorems below only assert behaviour under no-overflow bounds, where
  wrapping, panicking and exact arithmetic agree, and the
  counterexamples only exercise a checked panic or a u32 wrap whose
  divergence from the claimed value holds in either profile), and the
  `as u32` cast reduces the value modulo two to the 32.
* A panic (a failed assert, a failed unwrap or expect) is modelled by
  an Option result being none, or by a dedicated outcome constructor.
* Fallible operations return Except.
* The external qrcodegen library is a black box producing a square
  boolean module matrix; the external quircs decoder is a black box
  producing a list of per-symbol outcomes; the file system and the
  standard input are an explicit environment value.
-/

namespace QrGen

/-- Decimal digit character, as produced by the Rust Display
implementation for integers. -/
def digitChar (n : Nat) : Char :=
  match n with
  | 0 => '0' | 1 => '1' | 2 => '2' | 3 => '3' | 4 => '4'
  | 5 => '5' | 6 => '6' | 7 => '7' | 8 => '8' | 9 => '9'
  | _ => '*'

/-- Fuel-based decimal digit list of a natural number, most significant
digit first.  The fuel keeps the recursion structural so that the kernel
can evaluate concrete instances. -/
def natDigitsAux : Nat → Nat → List Char
  | 0, _ => []
  | _, 0 => []
  | fuel + 1, n + 1 => natDigitsAux fuel ((n + 1) / 10) ++ [digitChar ((n + 1) % 10)]

/-- Decimal rendering of a natural number, the embedding of the Rust
Display output for unsigned values. -/
def natRepr (n : Nat) : String :=
  if n = 0 then "0" else String.mk (natDigitsAux n n)

/-- Decimal rendering of an integer, the embedding of the Rust Display
output for i32 values as used by the format! calls in src/main.rs. -/
def intRepr : Int → String
  | Int.ofNat m => natRepr m
  | Int.negSucc m => "-" ++ natRepr (m + 1)

/-- The smallest i32 value, -(2 to the 31). -/
def i32Min : Int := -2147483648

/-- The largest i32 value, 2 to the 31 minus 1. -/
def i32Max : Int := 2147483647

/-- Two-complement wrap-around of an integer into the i32 range, the
behaviour of plain i32 arithmetic in a release build. -/
def i32_wrap (v : Int) : Int :=
  (v + 2147483648) % 4294967296 - 2147483648

/-- Plain (unchecked) i32 addition: wraps on overflow. -/
def i32_add (a b : Int) : Int :=
  i32_wrap (a + b)

/-- Plain (unchecked) i32 multiplication: wraps on overflow. -/
def i32_mul (a b : Int) : Int :=
  i32_wrap (a * b)

/-- i32 checked_add: some of the exact sum when it fits in i32, none
otherwise (so that unwrap on it panics). -/
def checked_add (a b : Int) : Option Int :=
  if i32Min ≤ a + b ∧ a + b ≤ i32Max then some (a + b) else none

/-- i32 checked_mul: some of the exact product when it fits in i32,
none otherwise (so that unwrap on it panics). -/
def checked_mul (a b : Int) : Option Int :=
  if i32Min ≤ a * b ∧ a * b ≤ i32Max then some (a * b) else none

/-- Plain (unchecked) u32 multiplication: wraps modulo 2 to the 32. -/
def u32_mul (a b : Nat) : Nat :=
  a * b % 4294967296

/-- The `as u32` cast applied to an i32 value: reduction modulo 2 to
the 32 of the two-complement bit pattern. -/
def i32_as_u32 (i : Int) : Nat :=
  (i % 4294967296).toNat

/-- A QR symbol matrix: a square grid of boolean modules (true = dark),
as produced by the external qrcodegen library. -/
structure QrCode where
  size : Nat
  module : Nat → Nat → Bool

/-- The qrcodegen accessor QrCode::get_module: the module colour at
coordinates (x, y), with false (light) for coordinates outside the
grid. -/
def QrCode.get_module (qr : QrCode) (x y : Int) : Bool :=
  decide (0 ≤ x) && decide (x < (qr.size : Int)) &&
    decide (0 ≤ y) && decide (y < (qr.size : Int)) &&
    qr.module x.toNat y.toNat

/-- Row-major list of the coordinates of the dark modules of a matrix. -/
def darkModules (qr : QrCode) : List (Nat × Nat) :=
  (List.range qr.size).flatMap (fun y =>
    ((List.range qr.size).filter (fun x => qr.module x y)).map (fun x => (x, y)))

/-- The path element emitted for one dark module in to_svg_string
(src/main.rs line 137): an absolute move to the scaled, border-shifted
module corner, a horizontal line, a vertical line, a backwards
horizontal line, and a closepath, tracing a square of side scale.  The
coordinate arithmetic (x + border) * scale is plain i32 arithmetic and
wraps on overflow. -/
def moduleSquare (border scale : Int) (x y : Int) : String :=
  "M" ++ intRepr (i32_mul (i32_add x border) scale) ++ "," ++
    intRepr (i32_mul (i32_add y border) scale) ++
    "h" ++ intRepr scale ++ "v" ++ intRepr scale ++ "h-" ++ intRepr scale ++ "z"

/-- The square subpath of one dark module at exact integer positions,
the form the specification describes; it agrees with moduleSquare
whenever the coordinate arithmetic stays in the i32 range. -/
def moduleSquareSpec (border scale : Int) (x y : Int) : String :=
  "M" ++ intRepr ((x + border) * scale) ++ "," ++ intRepr ((y + border) * scale) ++
    "h" ++ intRepr scale ++ "v" ++ intRepr scale ++ "h-" ++ intRepr scale ++ "z"

/-- The nested module loop of to_svg_string (src/main.rs lines 131-140):
row-major accumulation of one square subpath per dark module, with a
space separator before every module except at coordinates (0, 0). -/
def svgPathData (qr : QrCode) (border scale : Int) : String :=
  (List.range qr.size).foldl (fun acc (y : Nat) =>
    (List.range qr.size).foldl (fun acc (x : Nat) =>
      if qr.get_module (x : Int) (y : Int) then
        (if x ≠ 0 ∨ y ≠ 0 then acc ++ " " else acc) ++
          moduleSquare border scale (x : Int) (y : Int)
      else acc) acc) ""

/-- The to_svg_string renderer (src/main.rs lines 120-144).  The two
leading asserts are modelled by the none result (a panic), as are the
unwrap calls on the checked dimension arithmetic of line 126: the
dimension is size.checked_add(border.checked_mul(2).unwrap()).unwrap()
times scale, where the final multiplication by scale is plain i32
arithmetic and wraps; on configurations passing all of that the result
is the SVG document string assembled exactly as by the source. -/
def to_svg_string (qr : QrCode) (border scale : Int) : Option String :=
  if border < 0 then none
  else if scale ≤ 0 then none
  else
    match checked_mul border 2 with
    | none => none
    | some b2 =>
      match checked_add (qr.size : Int) b2 with
      | none => none
      | some d0 =>
        some (
          "<?xml version=\"1.0\" encoding=\"UTF-8\"?>\n" ++
          "<!DOCTYPE svg PUBLIC \"-//W3C//DTD SVG 1.1//EN\" \"http://www.w3.org/Graphics/SVG/1.1/DTD/svg11.dtd\">\n" ++
          ("<svg xmlns=\"http://www.w3.org/2000/svg\" version=\"1.1\" viewBox=\"0 0 " ++
            intRepr (i32_mul d0 scale) ++ " " ++
            intRepr (i32_mul d0 scale) ++ "\" width=\"" ++
            intRepr (i32_mul d0 scale) ++ "\" height=\"" ++
            intRepr (i32_mul d0 scale) ++ "\" stroke=\"none\">\n") ++
          "\t<rect width=\"100%\" height=\"100%\" fill=\"#FFFFFF\"/>\n" ++
          "\t<path d=\"" ++ svgPathData qr border scale ++ "\" fill=\"#000000\"/>\n" ++
          "</svg>\n")

/-- Inclusive-exclusive integer range a..b of Rust, as a list. -/
def intRange (a b : Int) : List Int :=
  (List.range (b - a).toNat).map (fun (i : Nat) => a + (i : Int))

/-- The print_qr console renderer (src/main.rs lines 148-158) as the
list of lines it prints: for every row from -4 to size + 3 one line of
doubled glyphs (a block character doubled for dark, a space doubled for
light), and a trailing empty line from the final println. -/
def print_qr (qr : QrCode) : List String :=
  ((intRange (-4) ((qr.size : Int) + 4)).map (fun y =>
    String.join ((intRange (-4) ((qr.size : Int) + 4)).map (fun x =>
      let c : Char := if qr.get_module x y then '█' else ' '
      String.mk [c, c])))) ++ [""]

/-- A grayscale (luma) image: dimensions plus a pixel map.  Embeds the
ImageBuffer of the external image crate at the level of detail the
renderer uses. -/
structure Image where
  width : Nat
  height : Nat
  pixel : Nat → Nat → Nat

/-- ImageBuffer::from_pixel: a constant image. -/
def Image.from_pixel (w h v : Nat) : Image :=
  ⟨w, h, fun _ _ => v⟩

/-- ImageBuffer::put_pixel: update one pixel.  Whenever the buffer side
arithmetic stays in range the renderer only calls it in bounds, so the
out-of-bounds panic of the image crate is not modelled. -/
def Image.put_pixel (im : Image) (X Y v : Nat) : Image :=
  ⟨im.width, im.height, fun a b => if a = X ∧ b = Y then v else im.pixel a b⟩

/-- image::imageops::resize with FilterType::Nearest (external image
crate): each target pixel samples the source pixel whose index is the
scaled-down target index.  At the integer upscaling factors the renderer
uses, this is exact nearest-neighbour block replication. -/
def resize (im : Image) (w h : Nat) : Image :=
  ⟨w, h, fun a b => im.pixel (a * im.width / w) (b * im.height / h)⟩

/-- The module-painting loop of write_to_png_scaled (src/main.rs lines
177-183): paint pixel ((x + border) as u32, (y + border) as u32) black
for every dark module (x, y); the coordinate sums are plain i32
arithmetic followed by the u32 cast. -/
def paintModules (qr : QrCode) (border : Int) (img : Image) : Image :=
  (List.range qr.size).foldl (fun im (y : Nat) =>
    (List.range qr.size).foldl (fun im (x : Nat) =>
      if qr.get_module (x : Int) (y : Int) then
        im.put_pixel (i32_as_u32 (i32_add (x : Int) border))
          (i32_as_u32 (i32_add (y : Int) border)) 0
      else im) im) img

/-- The write_to_png_scaled renderer (src/main.rs lines 162-190) up to
the final file write: validate border and scale returning a recoverable
error, build a white luma buffer of side (size + 2 * border) as u32
(the sum is plain i32 arithmetic, wrapping on overflow, then cast),
paint the dark modules black, and resize by the scale factor with
nearest-neighbour sampling, the target side img_size * scale_factor
being a plain u32 product that wraps on overflow.  The ok value is the
image that is then saved to file_path; the save itself is an io action
outside this model. -/
def write_to_png_scaled (qr : QrCode) (border : Int) (scale_factor : Nat)
    (file_path : String) : Except String Image :=
  if border < 0 then Except.error "Border must be non-negative"
  else if scale_factor < 1 then Except.error "Scale factor must be positive"
  else
    let _ := file_path
    let img_size : Nat := i32_as_u32 (i32_add (qr.size : Int) (i32_mul 2 border))
    let img : Image := Image.from_pixel img_size img_size 255
    let img : Image := paintModules qr border img
    Except.ok (resize img (u32_mul img_size scale_factor) (u32_mul img_size scale_factor))

/-- The ambient input environment of one CLI invocation: whether the
standard input is an interactive terminal, the data available on a piped
standard input, and the file system as a map from paths to contents or
io errors. -/
structure Env where
  stdinIsTerminal : Bool
  stdinData : String
  files : String → Except String String

/-- The encoder input acquisition read_input (src/main.rs lines 96-114):
the value returned to main paired with the messages printed to the error
stream.  A named file wins over piped data; a file error is reported
with the path and the cause and propagated; an interactive terminal with
no path yields the diagnostic and an empty success. -/
def read_input (env : Env) (input : Option String) :
    Except String String × List String :=
  match input with
  | some file_path =>
    match env.files file_path with
    | Except.ok s => (Except.ok s, [])
    | Except.error e =>
      (Except.error e, ["Error reading file \x27" ++ file_path ++ "\x27: " ++ e])
  | none =>
    if env.stdinIsTerminal = false then (Except.ok env.stdinData, [])
    else (Except.ok "", ["No input provided. Please specify a file or pipe data."])

/-- Outcome of the decoder input acquisition: the bytes read, an io
error propagated to main, or an explicit process exit. -/
inductive ReadImageResult where
  | ok (bytes : String)
  | ioError (e : String)
  | exited (code : Nat)
deriving DecidableEq, Repr

/-- The decoder input acquisition read_image (src/decoder.rs lines
41-51), up to the image decoding step: the outcome paired with the
messages printed to the error stream.  Piped standard input wins over a
named file; a file error propagates without naming the path; an
interactive terminal with no path prints the diagnostic and exits with
status 1. -/
def read_image (env : Env) (input : Option String) :
    ReadImageResult × List String :=
  if env.stdinIsTerminal = false then (ReadImageResult.ok env.stdinData, [])
  else
    match input with
    | some file_path =>
      match env.files file_path with
      | Except.ok s => (ReadImageResult.ok s, [])
      | Except.error e => (ReadImageResult.ioError e, [])
    | none =>
      (ReadImageResult.exited 1,
        ["No input provided. Please specify a file or pipe data."])

/-- The four error correction levels of qrcodegen. -/
inductive QrCodeEcc where
  | Low
  | Medium
  | Quartile
  | High
deriving DecidableEq, Repr

/-- The Rust str::to_lowercase applied to the flag strings, embedded as
a character-wise lowercase map (the flags are ASCII). -/
def strToLower (s : String) : String :=
  String.mk (s.data.map Char.toLower)

/-- The ECC flag match of the encoder main (src/main.rs lines 55-64):
case-insensitive single letters l, m, q, h; anything else is rejected. -/
def parseEcc (s : String) : Option QrCodeEcc :=
  match strToLower s with
  | "l" => some QrCodeEcc.Low
  | "m" => some QrCodeEcc.Medium
  | "q" => some QrCodeEcc.Quartile
  | "h" => some QrCodeEcc.High
  | _ => none

/-- The output type flag of the encoder CLI. -/
inductive OutputType where
  | TXT
  | SVG
  | PNG
deriving DecidableEq, Repr

/-- The parsed encoder command line (struct Cli of src/main.rs). -/
structure Cli where
  ecc : String
  input : Option String
  output_type : OutputType
  output_file : String
  border_width : Int
  scale : Int

/-- How the encoder process ends: a normal return of Ok, a propagated io
error (non-zero exit), or a panic. -/
inductive ExitKind where
  | ok
  | ioError (e : String)
  | panicked
deriving DecidableEq, Repr

/-- Everything observable about one encoder run: the exit, the error
stream lines, the standard output lines, and the PNG image written, if
any. -/
structure MainOutcome where
  exit : ExitKind
  stderr : List String
  stdout : List String
  png : Option Image

/-- The encoder main (src/main.rs lines 52-88), parametrised by the
external qrcodegen encode_text capability: parse the ECC flag (an
invalid level prints a diagnostic and returns Ok before any input is
read), acquire input, encode, and render in the selected format.
Encoding failure and PNG write failure are reported on the error stream
followed by a normal Ok return. -/
def encoderMain (encode_text : String → QrCodeEcc → Except String QrCode)
    (env : Env) (args : Cli) : MainOutcome :=
  match parseEcc args.ecc with
  | none =>
    ⟨ExitKind.ok, ["Invalid error correction level. Use L, M, Q, or H."], [], none⟩
  | some ecc =>
    match read_input env args.input with
    | (Except.error e, msgs) => ⟨ExitKind.ioError e, msgs, [], none⟩
    | (Except.ok text, msgs) =>
      match encode_text text ecc with
      | Except.error e =>
        ⟨ExitKind.ok, msgs ++ ["Failed to generate QR code: " ++ e], [], none⟩
      | Except.ok qr =>
        match args.output_type with
        | OutputType.TXT => ⟨ExitKind.ok, msgs, print_qr qr, none⟩
        | OutputType.SVG =>
          match to_svg_string qr args.border_width args.scale with
          | some s => ⟨ExitKind.ok, msgs, [s], none⟩
          | none => ⟨ExitKind.panicked, msgs, [], none⟩
        | OutputType.PNG =>
          match write_to_png_scaled qr args.border_width (i32_as_u32 args.scale)
              args.output_file with
          | Except.ok img => ⟨ExitKind.ok, msgs, [], some img⟩
          | Except.error e =>
            ⟨ExitKind.ok, msgs ++ ["Error writing PNG: " ++ e], [], none⟩

/-- What the external quircs pipeline yields for one located symbol, as
consumed by the decoder main loop: extraction may fail, payload decoding
may fail, the payload bytes may fail UTF-8 conversion, or a payload
string is produced. -/
inductive SymbolOutcome where
  | extractErr
  | decodeErr
  | utf8Err
  | payload (s : String)
deriving DecidableEq, Repr

/-- True exactly on a successfully decoded UTF-8 payload. -/
def SymbolOutcome.isPayload : SymbolOutcome → Bool
  | SymbolOutcome.payload _ => true
  | _ => false

/-- The payload string of a successful outcome. -/
def SymbolOutcome.payloadText : SymbolOutcome → Option String
  | SymbolOutcome.payload s => some s
  | _ => none

/-- The decoder main loop (src/decoder.rs lines 32-36): for each located
symbol in order, expect extraction, expect payload decoding, unwrap the
UTF-8 conversion, and print the payload.  Returns the printed lines and
whether the process panicked: every expect or unwrap failure aborts the
whole process on the spot. -/
def decoderMainLoop : List SymbolOutcome → List String × Bool
  | [] => ([], false)
  | SymbolOutcome.payload s :: rest =>
    let r := decoderMainLoop rest
    (s :: r.1, r.2)
  | _ :: _ => ([], true)

/-- A small fixed sample matrix used to instantiate theorems with
hypotheses at concrete inputs: side 2 with the main diagonal dark. -/
def sampleQr : QrCode :=
  ⟨2, fun x y => x == y⟩

/-- A piped-input environment: the standard input is not a terminal and
carries the data PIPED; every file read yields FILE-CONTENTS. -/
def envPiped : Env :=
  ⟨false, "PIPED", fun _ => Except.ok "FILE-CONTENTS"⟩

/-- An interactive environment: the standard input is a terminal. -/
def envTerminal : Env :=
  ⟨true, "TTY", fun _ => Except.ok "FILE-CONTENTS"⟩

/-- An interactive environment whose file system rejects every path. -/
def envMissing : Env :=
  ⟨true, "TTY", fun _ => Except.error "No such file or directory (os error 2)"⟩

/-- An encode capability that always fails, standing for an input text
beyond the maximum symbol capacity at the chosen ECC level. -/
def encodeFails : String → QrCodeEcc → Except String QrCode :=
  fun _ _ => Except.error "data too long"

/-- An encode capability that always yields the sample matrix. -/
def encodeConst : String → QrCodeEcc → Except String QrCode :=
  fun _ _ => Except.ok sampleQr

end QrGen

namespace QrGen

/-- Appending strings left to right with a seed equals the seed followed
by the fold from the empty string. -/
theorem string_foldl_from (l : List String) :
    ∀ s : String, l.foldl (fun a b => a ++ b) s = s ++ l.foldl (fun a b => a ++ b) "" := by
  induction l with
  | nil => intro s; exact (String.append_empty s).symm
  | cons a l ih =>
    intro s
    show l.foldl _ (s ++ a) = s ++ l.foldl _ ("" ++ a)
    rw [ih (s ++ a), ih ("" ++ a), String.empty_append, String.append_assoc]

/-- String.join of a cons. -/
theorem join_cons (s : String) (l : List String) :
    String.join (s :: l) = s ++ String.join l := by
  show l.foldl (fun a b => a ++ b) ("" ++ s) = _
  rw [String.empty_append, string_foldl_from l s]
  rfl

/-- String.join distributes over list append. -/
theorem join_append (l₁ l₂ : List String) :
    String.join (l₁ ++ l₂) = String.join l₁ ++ String.join l₂ := by
  induction l₁ with
  | nil => rw [List.nil_append]; exact (String.empty_append _).symm
  | cons a l ih =>
    rw [List.cons_append, join_cons, join_cons, ih, String.append_assoc]

/-- A string-accumulating foldl is the seed followed by the join of the
mapped list. -/
theorem foldl_append_eq_join (g : α → String) (l : List α) :
    ∀ acc : String, l.foldl (fun a x => a ++ g x) acc = acc ++ String.join (l.map g) := by
  induction l with
  | nil => intro acc; exact (String.append_empty acc).symm
  | cons a l ih =>
    intro acc
    show l.foldl _ (acc ++ g a) = _
    rw [ih (acc ++ g a), List.map_cons, join_cons, String.append_assoc]

/-- Joining strings that are empty off a predicate equals joining over
the filtered list. -/
theorem join_map_ite (p : α → Bool) (f : α → String) (l : List α) :
    String.join (l.map (fun x => if p x then f x else "")) =
      String.join ((l.filter p).map f) := by
  induction l with
  | nil => rfl
  | cons a l ih =>
    rw [List.map_cons, join_cons, List.filter_cons]
    by_cases h : p a = true
    · rw [if_pos h, if_pos h, List.map_cons, join_cons, ih]
    · rw [if_neg h, if_neg h, String.empty_append, ih]

/-- Joining over a flatMap equals joining the per-element joins. -/
theorem join_map_flatMap (h : α → List β) (f : β → String) (l : List α) :
    String.join ((l.flatMap h).map f) =
      String.join (l.map (fun y => String.join ((h y).map f))) := by
  induction l with
  | nil => rfl
  | cons a l ih =>
    rw [List.flatMap_cons, List.map_append, join_append, ih, List.map_cons, join_cons]

/-- Inside the grid, get_module is the raw module map. -/
theorem get_module_coe (qr : QrCode) (x y : Nat) (hx : x < qr.size) (hy : y < qr.size) :
    qr.get_module (x : Int) (y : Int) = qr.module x y := by
  simp [QrCode.get_module, hx, hy]

/-- The SVG module loop produces one space-separated square subpath per
dark module, in row-major order, the space being omitted only at the
origin module. -/
theorem svgPathData_eq_join (qr : QrCode) (border scale : Int) :
    svgPathData qr border scale =
      String.join ((darkModules qr).map (fun (p : Nat × Nat) =>
        (if p.1 ≠ 0 ∨ p.2 ≠ 0 then " " else "") ++
          moduleSquare border scale (p.1 : Int) (p.2 : Int))) := by
  unfold svgPathData darkModules
  rw [List.foldl_ext _
    (fun acc (y : Nat) => acc ++ String.join ((List.range qr.size).map (fun (x : Nat) =>
      if qr.get_module (x : Int) (y : Int) then
        (if x ≠ 0 ∨ y ≠ 0 then " " else "") ++ moduleSquare border scale (x : Int) (y : Int)
      else ""))) ""]
  · rw [foldl_append_eq_join, String.empty_append, join_map_flatMap]
    congr 1
    apply List.map_congr_left
    intro y hy
    rw [List.map_map]
    have hcong : ∀ x ∈ List.range qr.size,
        (if qr.get_module (x : Int) (y : Int) then
          (if x ≠ 0 ∨ y ≠ 0 then " " else "") ++ moduleSquare border scale (x : Int) (y : Int)
        else "") =
        (if qr.module x y then
          (if x ≠ 0 ∨ y ≠ 0 then " " else "") ++ moduleSquare border scale (x : Int) (y : Int)
        else "") := by
      intro x hx
      rw [get_module_coe qr x y (List.mem_range.mp hx) (List.mem_range.mp hy)]
    rw [List.map_congr_left hcong, join_map_ite]
    rfl
  · intro acc y _
    have hext : List.foldl
        (fun acc (x : Nat) =>
          if qr.get_module (x : Int) (y : Int) then
            (if x ≠ 0 ∨ y ≠ 0 then acc ++ " " else acc) ++
              moduleSquare border scale (x : Int) (y : Int)
          else acc) acc (List.range qr.size) =
        List.foldl (fun a (x : Nat) => a ++
          (if qr.get_module (x : Int) (y : Int) then
            (if x ≠ 0 ∨ y ≠ 0 then " " else "") ++ moduleSquare border scale (x : Int) (y : Int)
          else "")) acc (List.range qr.size) := by
      apply List.foldl_ext
      intro a x _
      by_cases hm : qr.get_module (x : Int) (y : Int) = true
      · rw [if_pos hm, if_pos hm]
        by_cases hxy : x ≠ 0 ∨ y ≠ 0
        · rw [if_pos hxy, if_pos hxy, String.append_assoc]
        · rw [if_neg hxy, if_neg hxy, String.empty_append]
      · rw [if_neg hm, if_neg hm, String.append_empty]
    rw [hext, foldl_append_eq_join]

end QrGen

namespace QrGen

/-- Digit characters are never a carriage return. -/
theorem digitChar_ne_cr (n : Nat) : digitChar n ≠ '\r' := by
  unfold digitChar
  split <;> decide

/-- The digit list of a natural number never holds a carriage return. -/
theorem natDigitsAux_ne_cr : ∀ (fuel n : Nat), '\r' ∉ natDigitsAux fuel n := by
  intro fuel
  induction fuel with
  | zero => intro n; simp [natDigitsAux]
  | succ f ih =>
    intro n
    cases n with
    | zero => simp [natDigitsAux]
    | succ m =>
      rw [natDigitsAux]
      intro hmem
      rcases List.mem_append.mp hmem with h | h
      · exact ih _ h
      · exact digitChar_ne_cr _ (List.mem_singleton.mp h).symm

/-- The decimal rendering of a natural number has no carriage return. -/
theorem natRepr_ne_cr (n : Nat) : '\r' ∉ (natRepr n).data := by
  unfold natRepr
  split
  · decide
  · exact natDigitsAux_ne_cr n n

/-- The decimal rendering of an integer has no carriage return. -/
theorem intRepr_ne_cr : ∀ i : Int, '\r' ∉ (intRepr i).data := by
  intro i
  cases i with
  | ofNat m => exact natRepr_ne_cr m
  | negSucc m =>
    show '\r' ∉ ("-" ++ natRepr (m + 1)).data
    rw [String.data_append]
    intro h
    rcases List.mem_append.mp h with h | h
    · exact absurd h (by decide)
    · exact natRepr_ne_cr (m + 1) h

/-- Appending strings free of a character stays free of it. -/
theorem not_mem_append_str {c : Char} {a b : String}
    (ha : c ∉ a.data) (hb : c ∉ b.data) : c ∉ (a ++ b).data := by
  rw [String.data_append]
  intro h
  rcases List.mem_append.mp h with h | h
  · exact ha h
  · exact hb h

/-- A character of a join comes from one of the joined strings. -/
theorem mem_join_data {c : Char} : ∀ (l : List String), c ∈ (String.join l).data →
    ∃ s ∈ l, c ∈ s.data := by
  intro l
  induction l with
  | nil =>
    intro h
    rw [show (String.join []).data = [] from rfl] at h
    exact absurd h (List.not_mem_nil c)
  | cons a l ih =>
    intro h
    rw [join_cons, String.data_append] at h
    rcases List.mem_append.mp h with h | h
    · exact ⟨a, List.mem_cons_self a l, h⟩
    · obtain ⟨s, hs, hc⟩ := ih h
      exact ⟨s, List.mem_cons_of_mem a hs, hc⟩

/-- One square subpath has no carriage return. -/
theorem moduleSquare_ne_cr (border scale x y : Int) :
    '\r' ∉ (moduleSquare border scale x y).data := by
  unfold moduleSquare
  repeat' apply not_mem_append_str
  all_goals first
    | exact intRepr_ne_cr _
    | decide

/-- The SVG path data has no carriage return. -/
theorem svgPathData_ne_cr (qr : QrCode) (border scale : Int) :
    '\r' ∉ (svgPathData qr border scale).data := by
  rw [svgPathData_eq_join]
  intro h
  obtain ⟨s, hs, hc⟩ := mem_join_data _ h
  obtain ⟨p, _, rfl⟩ := List.mem_map.mp hs
  revert hc
  apply not_mem_append_str
  · split <;> decide
  · exact moduleSquare_ne_cr _ _ _ _

/-- Wrapping is the identity inside the i32 range. -/
theorem i32_wrap_eq_self (v : Int) (h1 : i32Min ≤ v) (h2 : v ≤ i32Max) :
    i32_wrap v = v := by
  simp only [i32Min, i32Max] at h1 h2
  simp only [i32_wrap]
  omega

/-- A dark module coordinate lies inside the grid. -/
theorem mem_darkModules (qr : QrCode) (p : Nat × Nat) (hp : p ∈ darkModules qr) :
    p.1 < qr.size ∧ p.2 < qr.size := by
  unfold darkModules at hp
  simp only [List.mem_flatMap, List.mem_map, List.mem_filter, List.mem_range] at hp
  obtain ⟨y, hy, x, ⟨hx, _⟩, rfl⟩ := hp
  exact ⟨hx, hy⟩

/-- The wrapped and the exact square subpath agree when the coordinate
arithmetic stays in the i32 range. -/
theorem moduleSquare_eq_spec (border scale x y : Int)
    (hx1 : i32Min ≤ x + border) (hx2 : x + border ≤ i32Max)
    (hx3 : i32Min ≤ (x + border) * scale) (hx4 : (x + border) * scale ≤ i32Max)
    (hy1 : i32Min ≤ y + border) (hy2 : y + border ≤ i32Max)
    (hy3 : i32Min ≤ (y + border) * scale) (hy4 : (y + border) * scale ≤ i32Max) :
    moduleSquare border scale x y = moduleSquareSpec border scale x y := by
  unfold moduleSquare moduleSquareSpec i32_mul i32_add
  rw [i32_wrap_eq_self _ hx1 hx2, i32_wrap_eq_self _ hy1 hy2,
    i32_wrap_eq_self _ hx3 hx4, i32_wrap_eq_self _ hy3 hy4]

/-- The SVG renderer on a valid configuration whose scaled dimension
stays inside the i32 range: the exact document emitted, with the
dimension (size + 2 * border) * scale in the view box and both sizes,
the white background rectangle, and one exact square subpath per dark
module. -/
theorem to_svg_string_spec (qr : QrCode) (border scale : Int)
    (hb : 0 ≤ border) (hs : 0 < scale)
    (hdim : ((qr.size : Int) + 2 * border) * scale ≤ i32Max) :
    to_svg_string qr border scale = some (
      "<?xml version=\"1.0\" encoding=\"UTF-8\"?>\n" ++
      "<!DOCTYPE svg PUBLIC \"-//W3C//DTD SVG 1.1//EN\" \"http://www.w3.org/Graphics/SVG/1.1/DTD/svg11.dtd\">\n" ++
      ("<svg xmlns=\"http://www.w3.org/2000/svg\" version=\"1.1\" viewBox=\"0 0 " ++
        intRepr (((qr.size : Int) + 2 * border) * scale) ++ " " ++
        intRepr (((qr.size : Int) + 2 * border) * scale) ++ "\" width=\"" ++
        intRepr (((qr.size : Int) + 2 * border) * scale) ++ "\" height=\"" ++
        intRepr (((qr.size : Int) + 2 * border) * scale) ++ "\" stroke=\"none\">\n") ++
      "\t<rect width=\"100%\" height=\"100%\" fill=\"#FFFFFF\"/>\n" ++
      "\t<path d=\"" ++
        String.join ((darkModules qr).map (fun (p : Nat × Nat) =>
          (if p.1 ≠ 0 ∨ p.2 ≠ 0 then " " else "") ++
            moduleSquareSpec border scale (p.1 : Int) (p.2 : Int))) ++
        "\" fill=\"#000000\"/>\n" ++
      "</svg>\n") := by
  have hd0 : 0 ≤ (qr.size : Int) + 2 * border := by omega
  have hdle : (qr.size : Int) + 2 * border ≤ ((qr.size : Int) + 2 * border) * scale :=
    le_mul_of_one_le_right hd0 (by omega)
  have hsz : (qr.size : Int) + 2 * border ≤ i32Max := le_trans hdle hdim
  have hb2 : checked_mul border 2 = some (border * 2) := by
    unfold checked_mul
    rw [if_pos]
    constructor
    · simp only [i32Min]; omega
    · simp only [i32Max] at hsz ⊢; omega
  have ha : checked_add (qr.size : Int) (border * 2) =
      some ((qr.size : Int) + border * 2) := by
    unfold checked_add
    rw [if_pos]
    constructor
    · simp only [i32Min]; omega
    · simp only [i32Max] at hsz ⊢; omega
  have hwrap : i32_mul ((qr.size : Int) + border * 2) scale =
      ((qr.size : Int) + 2 * border) * scale := by
    unfold i32_mul
    rw [show (qr.size : Int) + border * 2 = (qr.size : Int) + 2 * border from by ring]
    refine i32_wrap_eq_self _ ?_ hdim
    have h4 : 0 ≤ ((qr.size : Int) + 2 * border) * scale := mul_nonneg hd0 (le_of_lt hs)
    simp only [i32Min]
    omega
  have key : ∀ n : Nat, n < qr.size →
      i32Min ≤ (n : Int) + border ∧ (n : Int) + border ≤ i32Max ∧
      i32Min ≤ ((n : Int) + border) * scale ∧
      ((n : Int) + border) * scale ≤ i32Max := by
    intro n hn
    have hc : (n : Int) < (qr.size : Int) := by exact_mod_cast hn
    have h1 : (n : Int) + border ≤ (qr.size : Int) + 2 * border := by omega
    have h2 : 0 ≤ (n : Int) + border := by omega
    have h3 : ((n : Int) + border) * scale ≤ ((qr.size : Int) + 2 * border) * scale :=
      mul_le_mul_of_nonneg_right h1 (le_of_lt hs)
    have h4 : 0 ≤ ((n : Int) + border) * scale := mul_nonneg h2 (le_of_lt hs)
    refine ⟨?_, ?_, ?_, le_trans h3 hdim⟩
    · simp only [i32Min]; omega
    · simp only [i32Max] at hsz ⊢; omega
    · simp only [i32Min]; omega
  have hjoin : String.join ((darkModules qr).map (fun (p : Nat × Nat) =>
      (if p.1 ≠ 0 ∨ p.2 ≠ 0 then " " else "") ++
        moduleSquare border scale (p.1 : Int) (p.2 : Int))) =
    String.join ((darkModules qr).map (fun (p : Nat × Nat) =>
      (if p.1 ≠ 0 ∨ p.2 ≠ 0 then " " else "") ++
        moduleSquareSpec border scale (p.1 : Int) (p.2 : Int))) := by
    congr 1
    apply List.map_congr_left
    intro p hp
    obtain ⟨hp1, hp2⟩ := mem_darkModules qr p hp
    obtain ⟨a1, a2, a3, a4⟩ := key p.1 hp1
    obtain ⟨b1, b2, b3, b4⟩ := key p.2 hp2
    exact congrArg (fun s => (if p.1 ≠ 0 ∨ p.2 ≠ 0 then " " else "") ++ s)
      (moduleSquare_eq_spec border scale (p.1 : Int) (p.2 : Int)
        a1 a2 a3 a4 b1 b2 b3 b4)
  unfold to_svg_string
  rw [if_neg (by omega), if_neg (by omega)]
  simp only [hb2, ha]
  rw [hwrap, svgPathData_eq_join, hjoin]

/-- An SVG output string has no carriage return. -/
theorem to_svg_string_ne_cr (qr : QrCode) (border scale : Int) (out : String)
    (h : to_svg_string qr border scale = some out) : '\r' ∉ out.data := by
  unfold to_svg_string at h
  split at h
  · exact absurd h (by simp)
  · split at h
    · exact absurd h (by simp)
    · split at h
      · exact absurd h (by simp)
      · split at h
        · exact absurd h (by simp)
        · obtain rfl : _ = out := Option.some.inj h
          repeat' apply not_mem_append_str
          all_goals first
            | exact svgPathData_ne_cr qr border scale
            | exact intRepr_ne_cr _
            | decide

end QrGen

namespace QrGen

/-- The bordered coordinate shift: get_module at (c - 4, r - 4) as a
decidable condition on the unshifted row r and column c. -/
theorem get_module_shift (qr : QrCode) (r c : Nat) :
    qr.get_module (-4 + (c : Int)) (-4 + (r : Int)) =
      decide (4 ≤ r ∧ r < qr.size + 4 ∧ 4 ≤ c ∧ c < qr.size + 4 ∧
        qr.module (c - 4) (r - 4) = true) := by
  have h1 : (-4 + (c : Int)).toNat = c - 4 := by omega
  have h2 : (-4 + (r : Int)).toNat = r - 4 := by omega
  apply Bool.eq_iff_iff.mpr
  simp only [QrCode.get_module, Bool.and_eq_true, decide_eq_true_eq, h1, h2]
  constructor
  · rintro ⟨⟨⟨⟨hx0, hxs⟩, hy0⟩, hys⟩, hm⟩
    exact ⟨by omega, by omega, by omega, by omega, hm⟩
  · rintro ⟨h4r, hrs, h4c, hcs, hm⟩
    exact ⟨⟨⟨⟨by omega, by omega⟩, by omega⟩, by omega⟩, hm⟩

/-- The console renderer prints size + 8 lines of size + 8 doubled
glyphs: two block characters where the shifted coordinate hits a dark
module, two spaces elsewhere (in particular on the 4-module quiet-zone
border), followed by one empty line. -/
theorem print_qr_spec (qr : QrCode) :
    print_qr qr =
      ((List.range (qr.size + 8)).map (fun (r : Nat) =>
        String.join ((List.range (qr.size + 8)).map (fun (c : Nat) =>
          if 4 ≤ r ∧ r < qr.size + 4 ∧ 4 ≤ c ∧ c < qr.size + 4 ∧
              qr.module (c - 4) (r - 4) = true then "██" else "  ")))) ++ [""] := by
  unfold print_qr intRange
  congr 1
  have hn : (((qr.size : Int) + 4) - (-4)).toNat = qr.size + 8 := by omega
  rw [hn, List.map_map]
  apply List.map_congr_left
  intro r _
  simp only [Function.comp_apply]
  rw [List.map_map]
  congr 1
  apply List.map_congr_left
  intro c _
  simp only [Function.comp_apply]
  show String.mk [if qr.get_module (-4 + (c : Int)) (-4 + (r : Int)) then '█' else ' ',
      if qr.get_module (-4 + (c : Int)) (-4 + (r : Int)) then '█' else ' '] = _
  rw [get_module_shift]
  by_cases hp : 4 ≤ r ∧ r < qr.size + 4 ∧ 4 ≤ c ∧ c < qr.size + 4 ∧
      qr.module (c - 4) (r - 4) = true
  · rw [decide_eq_true hp, if_pos hp, if_pos rfl]
  · rw [decide_eq_false hp, if_neg hp]
    rfl

end QrGen

namespace QrGen

/-- One painted row: the pixel is black exactly where some dark module
of the row was painted at it. -/
theorem paint_row_pixel (qr : QrCode) (border : Int) (y : Nat) :
    ∀ (l : List Nat) (im : Image) (A B : Nat),
      (l.foldl (fun im (x : Nat) =>
        if qr.get_module (x : Int) (y : Int) then
          im.put_pixel (i32_as_u32 (i32_add (x : Int) border))
            (i32_as_u32 (i32_add (y : Int) border)) 0
        else im) im).pixel A B =
      (if l.any (fun (x : Nat) =>
          qr.get_module (x : Int) (y : Int) &&
            decide (A = i32_as_u32 (i32_add (x : Int) border)) &&
            decide (B = i32_as_u32 (i32_add (y : Int) border))) = true then 0
        else im.pixel A B) := by
  intro l
  induction l with
  | nil => intro im A B; simp
  | cons a l ih =>
    intro im A B
    rw [List.foldl_cons, List.any_cons, ih]
    cases hl : l.any (fun (x : Nat) =>
        qr.get_module (x : Int) (y : Int) &&
          decide (A = i32_as_u32 (i32_add (x : Int) border)) &&
          decide (B = i32_as_u32 (i32_add (y : Int) border))) with
    | true => simp
    | false =>
      simp only [Bool.or_false]
      cases hm : qr.get_module (a : Int) (y : Int) with
      | false => simp
      | true =>
        simp only [if_pos rfl, Bool.true_and]
        simp [Image.put_pixel, Bool.and_eq_true, decide_eq_true_eq]

/-- The whole painting pass, over an arbitrary row list. -/
theorem paintModules_pixel_aux (qr : QrCode) (border : Int) :
    ∀ (l : List Nat) (img : Image) (A B : Nat),
      ((l.foldl (fun im (y : Nat) =>
        (List.range qr.size).foldl (fun im (x : Nat) =>
          if qr.get_module (x : Int) (y : Int) then
            im.put_pixel (i32_as_u32 (i32_add (x : Int) border))
              (i32_as_u32 (i32_add (y : Int) border)) 0
          else im) im) img).pixel A B) =
      (if l.any (fun (y : Nat) => (List.range qr.size).any (fun (x : Nat) =>
          qr.get_module (x : Int) (y : Int) &&
            decide (A = i32_as_u32 (i32_add (x : Int) border)) &&
            decide (B = i32_as_u32 (i32_add (y : Int) border)))) = true then 0
        else img.pixel A B) := by
  intro l
  induction l with
  | nil => intro img A B; simp
  | cons a l ih =>
    intro img A B
    rw [List.foldl_cons, List.any_cons, ih]
    cases hl : l.any (fun (y : Nat) => (List.range qr.size).any (fun (x : Nat) =>
        qr.get_module (x : Int) (y : Int) &&
          decide (A = i32_as_u32 (i32_add (x : Int) border)) &&
          decide (B = i32_as_u32 (i32_add (y : Int) border)))) with
    | true => simp
    | false =>
      simp only [Bool.or_false]
      rw [paint_row_pixel]
      simp

/-- The painted coordinate test over the whole grid is the get_module
test at the border-shifted pixel coordinate, provided the border keeps
the painted coordinates inside the i32 range. -/
theorem paint_cond_eq (qr : QrCode) (border : Int) (A B : Nat)
    (hb : 0 ≤ border) (hsz : (qr.size : Int) + 2 * border ≤ i32Max) :
    ((List.range qr.size).any (fun (y : Nat) => (List.range qr.size).any (fun (x : Nat) =>
      qr.get_module (x : Int) (y : Int) &&
        decide (A = i32_as_u32 (i32_add (x : Int) border)) &&
        decide (B = i32_as_u32 (i32_add (y : Int) border))))) =
    qr.get_module ((A : Int) - (border.toNat : Int)) ((B : Int) - (border.toNat : Int)) := by
  have hcoord : ∀ n : Nat, n < qr.size →
      i32_as_u32 (i32_add (n : Int) border) = n + border.toNat := by
    intro n hn
    have hc : (n : Int) < (qr.size : Int) := by exact_mod_cast hn
    simp only [i32Max] at hsz
    simp only [i32_as_u32, i32_add, i32_wrap]
    omega
  apply Bool.eq_iff_iff.mpr
  constructor
  · intro h
    simp only [List.any_eq_true, List.mem_range, Bool.and_eq_true, decide_eq_true_eq] at h
    obtain ⟨y, hy, x, hx, ⟨hg, hA⟩, hB⟩ := h
    rw [get_module_coe qr x y hx hy] at hg
    rw [hcoord x hx] at hA
    rw [hcoord y hy] at hB
    subst hA
    subst hB
    have e1 : ((x + border.toNat : Nat) : Int) - (border.toNat : Int) = (x : Int) := by
      push_cast; ring
    have e2 : ((y + border.toNat : Nat) : Int) - (border.toNat : Int) = (y : Int) := by
      push_cast; ring
    rw [e1, e2, get_module_coe qr x y hx hy]
    exact hg
  · intro h
    simp only [QrCode.get_module, Bool.and_eq_true, decide_eq_true_eq] at h
    obtain ⟨⟨⟨⟨h1, h2⟩, h3⟩, h4⟩, hm⟩ := h
    have e1 : ((A : Int) - (border.toNat : Int)).toNat = A - border.toNat := by omega
    have e2 : ((B : Int) - (border.toNat : Int)).toNat = B - border.toNat := by omega
    rw [e1, e2] at hm
    simp only [List.any_eq_true, List.mem_range, Bool.and_eq_true, decide_eq_true_eq]
    refine ⟨B - border.toNat, by omega, A - border.toNat, by omega, ⟨?_, ?_⟩, ?_⟩
    · rw [get_module_coe qr (A - border.toNat) (B - border.toNat) (by omega) (by omega)]
      exact hm
    · rw [hcoord (A - border.toNat) (by omega)]
      omega
    · rw [hcoord (B - border.toNat) (by omega)]
      omega

/-- Painting leaves every pixel either black or as it was, depending
only on the module grid, provided the border keeps the painted
coordinates inside the i32 range. -/
theorem paintModules_pixel (qr : QrCode) (border : Int) (img : Image) (A B : Nat)
    (hb : 0 ≤ border) (hsz : (qr.size : Int) + 2 * border ≤ i32Max) :
    (paintModules qr border img).pixel A B =
      (if qr.get_module ((A : Int) - (border.toNat : Int))
          ((B : Int) - (border.toNat : Int)) = true
        then 0 else img.pixel A B) := by
  unfold paintModules
  rw [paintModules_pixel_aux, paint_cond_eq qr border A B hb hsz]

/-- An image fold whose step preserves the width preserves the width. -/
theorem foldl_width (f : Image → Nat → Image) (hf : ∀ im x, (f im x).width = im.width) :
    ∀ (l : List Nat) (im : Image), (l.foldl f im).width = im.width := by
  intro l
  induction l with
  | nil => intro im; rfl
  | cons a l ih => intro im; rw [List.foldl_cons, ih, hf]

/-- An image fold whose step preserves the height preserves the height. -/
theorem foldl_height (f : Image → Nat → Image) (hf : ∀ im x, (f im x).height = im.height) :
    ∀ (l : List Nat) (im : Image), (l.foldl f im).height = im.height := by
  intro l
  induction l with
  | nil => intro im; rfl
  | cons a l ih => intro im; rw [List.foldl_cons, ih, hf]

/-- Painting preserves the width. -/
theorem paintModules_width (qr : QrCode) (border : Int) (img : Image) :
    (paintModules qr border img).width = img.width := by
  unfold paintModules
  apply foldl_width
  intro im y
  apply foldl_width
  intro im x
  by_cases hm : qr.get_module (x : Int) (y : Int) = true
  · rw [if_pos hm]; rfl
  · rw [if_neg hm]

/-- Painting preserves the height. -/
theorem paintModules_height (qr : QrCode) (border : Int) (img : Image) :
    (paintModules qr border img).height = img.height := by
  unfold paintModules
  apply foldl_height
  intro im y
  apply foldl_height
  intro im x
  by_cases hm : qr.get_module (x : Int) (y : Int) = true
  · rw [if_pos hm]; rfl
  · rw [if_neg hm]

/-- The PNG renderer on a valid configuration whose buffer side fits in
i32 and whose scaled side fits in u32: an ok image of side
(size + 2 * border) * scale whose pixels are black exactly on the
upsampled dark modules and white everywhere else. -/
theorem write_to_png_scaled_spec (qr : QrCode) (border : Int) (scale_factor : Nat)
    (file_path : String) (hb : 0 ≤ border) (hs : 1 ≤ scale_factor)
    (hsz : (qr.size : Int) + 2 * border ≤ i32Max)
    (hu : (qr.size + 2 * border.toNat) * scale_factor < 4294967296) :
    ∃ img, write_to_png_scaled qr border scale_factor file_path = Except.ok img ∧
      img.width = (qr.size + 2 * border.toNat) * scale_factor ∧
      img.height = (qr.size + 2 * border.toNat) * scale_factor ∧
      ∀ A B : Nat, A < img.width → B < img.height →
        img.pixel A B =
          (if qr.get_module (((A / scale_factor : Nat) : Int) - (border.toNat : Int))
              (((B / scale_factor : Nat) : Int) - (border.toNat : Int)) = true
            then 0 else 255) := by
  have himg : i32_as_u32 (i32_add (qr.size : Int) (i32_mul 2 border)) =
      qr.size + 2 * border.toNat := by
    simp only [i32Max] at hsz
    simp only [i32_as_u32, i32_add, i32_mul, i32_wrap]
    omega
  have hmul : u32_mul (qr.size + 2 * border.toNat) scale_factor =
      (qr.size + 2 * border.toNat) * scale_factor := by
    unfold u32_mul
    exact Nat.mod_eq_of_lt hu
  have hww : write_to_png_scaled qr border scale_factor file_path =
      Except.ok (resize
        (paintModules qr border
          (Image.from_pixel (qr.size + 2 * border.toNat) (qr.size + 2 * border.toNat) 255))
        ((qr.size + 2 * border.toNat) * scale_factor)
        ((qr.size + 2 * border.toNat) * scale_factor)) := by
    unfold write_to_png_scaled
    rw [if_neg (by omega), if_neg (by omega)]
    simp only [himg, hmul]
  refine ⟨_, hww, rfl, rfl, ?_⟩
  intro A B hA hB
  have hA2 : A < (qr.size + 2 * border.toNat) * scale_factor := hA
  have hn : 0 < qr.size + 2 * border.toNat := by
    rcases Nat.eq_zero_or_pos (qr.size + 2 * border.toNat) with h0 | h
    · rw [h0] at hA2; omega
    · exact h
  have hdiv : ∀ C : Nat, C * (qr.size + 2 * border.toNat) /
      ((qr.size + 2 * border.toNat) * scale_factor) = C / scale_factor := by
    intro C
    rw [Nat.mul_comm C (qr.size + 2 * border.toNat), Nat.mul_div_mul_left _ _ hn]
  show (paintModules qr border
      (Image.from_pixel (qr.size + 2 * border.toNat) (qr.size + 2 * border.toNat) 255)).pixel
      (A * (paintModules qr border
        (Image.from_pixel (qr.size + 2 * border.toNat) (qr.size + 2 * border.toNat) 255)).width /
        ((qr.size + 2 * border.toNat) * scale_factor))
      (B * (paintModules qr border
        (Image.from_pixel (qr.size + 2 * border.toNat) (qr.size + 2 * border.toNat) 255)).height /
        ((qr.size + 2 * border.toNat) * scale_factor)) = _
  rw [paintModules_width, paintModules_height]
  show (paintModules qr border
      (Image.from_pixel (qr.size + 2 * border.toNat) (qr.size + 2 * border.toNat) 255)).pixel
      (A * (qr.size + 2 * border.toNat) / ((qr.size + 2 * border.toNat) * scale_factor))
      (B * (qr.size + 2 * border.toNat) / ((qr.size + 2 * border.toNat) * scale_factor)) = _
  rw [hdiv A, hdiv B, paintModules_pixel qr border _ _ _ hb hsz]
  rfl

end QrGen

namespace QrGen

/-- Claim C1 counterexample: with a negative border presented to the
PNG renderer, the rejection is delivered as a recoverable error result,
which the caller then reports as a runtime condition, not an assertion
failure, refuting the claim that both renderers reject by asserting. -/
theorem c1_renderer_rejection_cex :
    write_to_png_scaled sampleQr (-1) 10 "qrcode.png" =
      Except.error "Border must be non-negative" := by
  rfl

/-- Claim C1, amended: for every matrix a negative border or a
non-positive scale makes the SVG renderer panic by assertion before any
output, while the PNG renderer rejects a negative border or a zero
scale factor by returning a recoverable error result before any image
is produced. -/
theorem c1_renderer_rejection (qr : QrCode) (border scale : Int) (scale_factor : Nat)
    (fp : String) :
    ((border < 0 ∨ scale ≤ 0) → to_svg_string qr border scale = none) ∧
    ((border < 0 ∨ scale_factor < 1) →
      ∃ e, write_to_png_scaled qr border scale_factor fp = Except.error e) := by
  constructor
  · rintro (hb | hs)
    · unfold to_svg_string
      rw [if_pos hb]
    · unfold to_svg_string
      by_cases hb : border < 0
      · rw [if_pos hb]
      · rw [if_neg hb, if_pos hs]
  · rintro (hb | hs)
    · exact ⟨_, by unfold write_to_png_scaled; rw [if_pos hb]⟩
    · by_cases hb : border < 0
      · exact ⟨_, by unfold write_to_png_scaled; rw [if_pos hb]⟩
      · exact ⟨_, by unfold write_to_png_scaled; rw [if_neg hb, if_pos hs]⟩

/-- Claim C1 witness: concrete invalid configurations exercising both
rejection paths. -/
theorem c1_renderer_rejection_witness :
    ((-1 : Int) < 0 ∨ (10 : Int) ≤ 0) ∧
    to_svg_string sampleQr (-1) 10 = none ∧
    (∃ e, write_to_png_scaled sampleQr (-1) 10 "qrcode.png" = Except.error e) := by
  refine ⟨Or.inl (by decide), ?_, ?_⟩
  · exact (c1_renderer_rejection sampleQr (-1) 10 10 "qrcode.png").1 (Or.inl (by decide))
  · exact (c1_renderer_rejection sampleQr (-1) 10 10 "qrcode.png").2 (Or.inl (by decide))

/-- Claim C2 counterexample: three located symbols, the first yielding
the payload first, the second failing to decode, the third yielding the
payload second.  The loop prints only the first payload and panics: the
third payload is never printed although its symbol decodes
successfully, refuting per-symbol independence. -/
theorem c2_decoder_independence_cex :
    decoderMainLoop [SymbolOutcome.payload "first", SymbolOutcome.decodeErr,
      SymbolOutcome.payload "second"] = (["first"], true) := by
  decide

/-- Claim C2, amended: the decoder loop handles the located symbols
sequentially: the payloads of the successful symbols preceding the
first failure are printed, any extraction, decode or UTF-8 failure
panics the whole process on the spot, and no later payload is
printed. -/
theorem c2_decoder_loop_sequential (codes : List SymbolOutcome) :
    decoderMainLoop codes =
      ((codes.takeWhile SymbolOutcome.isPayload).filterMap SymbolOutcome.payloadText,
        codes.any (fun c => ! c.isPayload)) := by
  induction codes with
  | nil => rfl
  | cons a l ih =>
    cases a with
    | payload s =>
      show (s :: (decoderMainLoop l).1, (decoderMainLoop l).2) = _
      rw [ih]
      simp [List.takeWhile_cons, SymbolOutcome.isPayload, SymbolOutcome.payloadText,
        List.filterMap_cons, List.any_cons]
    | extractErr =>
      simp [decoderMainLoop, List.takeWhile_cons, SymbolOutcome.isPayload, List.any_cons]
    | decodeErr =>
      simp [decoderMainLoop, List.takeWhile_cons, SymbolOutcome.isPayload, List.any_cons]
    | utf8Err =>
      simp [decoderMainLoop, List.takeWhile_cons, SymbolOutcome.isPayload, List.any_cons]

/-- Claim C3 counterexample: the decoder acquisition with a named path
and piped standard input reads the pipe and ignores the file, refuting
that a given path is always opened and read regardless of the pipe. -/
theorem c3_input_acquisition_cex :
    read_image envPiped (some "qr.png") = (ReadImageResult.ok "PIPED", []) ∧
    envPiped.files "qr.png" = Except.ok "FILE-CONTENTS" ∧
    ("PIPED" : String) ≠ "FILE-CONTENTS" := by
  exact ⟨rfl, rfl, by decide⟩

/-- Claim C3, amended: the encoder acquisition always opens and reads a
given path, reporting a file error with the path and the cause and
aborting the run; the decoder acquisition reads a given path only when
the standard input is a terminal, propagating a file error without the
path, and when the standard input is piped it reads the pipe and
ignores the path. -/
theorem c3_input_acquisition (env : Env) (p : String) :
    (∀ s, env.files p = Except.ok s → read_input env (some p) = (Except.ok s, [])) ∧
    (∀ e, env.files p = Except.error e →
      read_input env (some p) =
        (Except.error e, ["Error reading file \x27" ++ p ++ "\x27: " ++ e]) ∧
      (∀ (enc : String → QrCodeEcc → Except String QrCode) (args : Cli) (ecc : QrCodeEcc),
        args.input = some p → parseEcc args.ecc = some ecc →
        encoderMain enc env args =
          ⟨ExitKind.ioError e,
            ["Error reading file \x27" ++ p ++ "\x27: " ++ e], [], none⟩)) ∧
    (env.stdinIsTerminal = true → ∀ s, env.files p = Except.ok s →
      read_image env (some p) = (ReadImageResult.ok s, [])) ∧
    (env.stdinIsTerminal = true → ∀ e, env.files p = Except.error e →
      read_image env (some p) = (ReadImageResult.ioError e, [])) ∧
    (env.stdinIsTerminal = false →
      read_image env (some p) = (ReadImageResult.ok env.stdinData, [])) := by
  refine ⟨?_, ?_, ?_, ?_, ?_⟩
  · intro s hs
    simp [read_input, hs]
  · intro e he
    constructor
    · simp [read_input, he]
    · intro enc args ecc hargs hecc
      unfold encoderMain
      rw [hecc, hargs]
      simp [read_input, he]
  · intro ht s hs
    simp [read_image, ht, hs]
  · intro ht e he
    simp [read_image, ht, he]
  · intro hf
    simp [read_image, hf]

/-- Claim C3 witness: the encoder reads the file, the decoder reads the
pipe, on the same piped environment. -/
theorem c3_input_acquisition_witness :
    envPiped.files "in.txt" = Except.ok "FILE-CONTENTS" ∧
    read_input envPiped (some "in.txt") = (Except.ok "FILE-CONTENTS", []) ∧
    envPiped.stdinIsTerminal = false ∧
    read_image envPiped (some "in.txt") = (ReadImageResult.ok "PIPED", []) := by
  refine ⟨rfl, ?_, rfl, ?_⟩
  · exact (c3_input_acquisition envPiped "in.txt").1 "FILE-CONTENTS" rfl
  · exact (c3_input_acquisition envPiped "in.txt").2.2.2.2 rfl

/-- Claim C4: with no input path and an interactive terminal, the two
CLIs diverge after the same diagnostic: the encoder acquisition returns
an empty success (and the encoder main then runs to a normal Ok exit),
while the decoder acquisition exits the process with status 1. -/
theorem c4_no_input_divergence (env : Env) (henv : env.stdinIsTerminal = true) :
    read_input env none =
      (Except.ok "", ["No input provided. Please specify a file or pipe data."]) ∧
    read_image env none =
      (ReadImageResult.exited 1,
        ["No input provided. Please specify a file or pipe data."]) ∧
    (∀ enc : String → QrCodeEcc → Except String QrCode,
      (encoderMain enc env ⟨"M", none, OutputType.TXT, "qrcode.png", 4, 10⟩).exit =
        ExitKind.ok) := by
  refine ⟨?_, ?_, ?_⟩
  · simp [read_input, henv]
  · simp [read_image, henv]
  · intro enc
    rcases henc : enc "" QrCodeEcc.Medium with e | q
    · simp [encoderMain, read_input, henv, henc,
        show parseEcc "M" = some QrCodeEcc.Medium from rfl]
    · simp [encoderMain, read_input, henv, henc,
        show parseEcc "M" = some QrCodeEcc.Medium from rfl]

/-- Claim C4 witness: the divergence at a concrete interactive
environment. -/
theorem c4_no_input_divergence_witness :
    envTerminal.stdinIsTerminal = true ∧
    read_input envTerminal none =
      (Except.ok "", ["No input provided. Please specify a file or pipe data."]) ∧
    read_image envTerminal none =
      (ReadImageResult.exited 1,
        ["No input provided. Please specify a file or pipe data."]) ∧
    (encoderMain encodeConst envTerminal
      ⟨"M", none, OutputType.TXT, "qrcode.png", 4, 10⟩).exit = ExitKind.ok := by
  have h := c4_no_input_divergence envTerminal rfl
  exact ⟨rfl, h.1, h.2.1, h.2.2 encodeConst⟩

end QrGen

namespace QrGen

set_option maxRecDepth 40000

/-- Claim C5 counterexample: the border 2 to the 30 is non-negative and
the scale 1 positive, so the claim promises a complete document, yet
the renderer panics at the unwrap of border.checked_mul(2), whose exact
value 2 to the 31 exceeds the i32 range, and produces no output. -/
theorem c5_svg_document_cex :
    (0 : Int) ≤ 1073741824 ∧ (0 : Int) < 1 ∧
    to_svg_string sampleQr 1073741824 1 = none := by
  exact ⟨by decide, by decide, rfl⟩

/-- Claim C5, amended: for every matrix, non-negative border and
positive scale whose scaled dimension (size + 2 * border) * scale stays
inside the i32 range, the SVG renderer returns the complete document:
the XML and DOCTYPE header, the svg element whose view box, width and
height all carry (size + 2 * border) * scale, the white full-size
background rectangle, and a single black-filled path holding one
scale-sized square subpath (absolute move, horizontal line, vertical
line, horizontal line back, closepath) exactly per dark module, every
line ending with a line feed; a border or scale beyond that bound makes
the renderer panic in the checked dimension arithmetic instead. -/
theorem c5_svg_document (qr : QrCode) (border scale : Int)
    (hb : 0 ≤ border) (hs : 0 < scale)
    (hdim : ((qr.size : Int) + 2 * border) * scale ≤ i32Max) :
    to_svg_string qr border scale = some (
      "<?xml version=\"1.0\" encoding=\"UTF-8\"?>\n" ++
      "<!DOCTYPE svg PUBLIC \"-//W3C//DTD SVG 1.1//EN\" \"http://www.w3.org/Graphics/SVG/1.1/DTD/svg11.dtd\">\n" ++
      ("<svg xmlns=\"http://www.w3.org/2000/svg\" version=\"1.1\" viewBox=\"0 0 " ++
        intRepr (((qr.size : Int) + 2 * border) * scale) ++ " " ++
        intRepr (((qr.size : Int) + 2 * border) * scale) ++ "\" width=\"" ++
        intRepr (((qr.size : Int) + 2 * border) * scale) ++ "\" height=\"" ++
        intRepr (((qr.size : Int) + 2 * border) * scale) ++ "\" stroke=\"none\">\n") ++
      "\t<rect width=\"100%\" height=\"100%\" fill=\"#FFFFFF\"/>\n" ++
      "\t<path d=\"" ++
        String.join ((darkModules qr).map (fun (p : Nat × Nat) =>
          (if p.1 ≠ 0 ∨ p.2 ≠ 0 then " " else "") ++
            moduleSquareSpec border scale (p.1 : Int) (p.2 : Int))) ++
        "\" fill=\"#000000\"/>\n" ++
      "</svg>\n") :=
  to_svg_string_spec qr border scale hb hs hdim

/-- Claim C5 witness: the renderer evaluated on the sample matrix with
border 1 and scale 2 yields the concrete document. -/
theorem c5_svg_document_witness :
    (0 : Int) ≤ 1 ∧ (0 : Int) < 2 ∧
    ((sampleQr.size : Int) + 2 * 1) * 2 ≤ i32Max ∧
    to_svg_string sampleQr 1 2 = some
      "<?xml version=\"1.0\" encoding=\"UTF-8\"?>\n<!DOCTYPE svg PUBLIC \"-//W3C//DTD SVG 1.1//EN\" \"http://www.w3.org/Graphics/SVG/1.1/DTD/svg11.dtd\">\n<svg xmlns=\"http://www.w3.org/2000/svg\" version=\"1.1\" viewBox=\"0 0 8 8\" width=\"8\" height=\"8\" stroke=\"none\">\n\t<rect width=\"100%\" height=\"100%\" fill=\"#FFFFFF\"/>\n\t<path d=\"M2,2h2v2h-2z M4,4h2v2h-2z\" fill=\"#000000\"/>\n</svg>\n" := by
  refine ⟨by decide, by decide, by decide, ?_⟩
  rw [c5_svg_document sampleQr 1 2 (by decide) (by decide) (by decide)]
  decide

/-- Claim C6: the SVG renderer is deterministic, identical inputs give
the one output value, and any produced document is free of carriage
returns, so all its line endings are bare line feeds. -/
theorem c6_svg_deterministic (qr : QrCode) (border scale : Int) :
    to_svg_string qr border scale = to_svg_string qr border scale ∧
    ∀ out, to_svg_string qr border scale = some out → '\r' ∉ out.data :=
  ⟨rfl, fun out h => to_svg_string_ne_cr qr border scale out h⟩

/-- Claim C6 witness: line-feed-only output on the sample document. -/
theorem c6_svg_deterministic_witness :
    to_svg_string sampleQr 1 2 = to_svg_string sampleQr 1 2 ∧
    '\r' ∉ ("<?xml version=\"1.0\" encoding=\"UTF-8\"?>\n<!DOCTYPE svg PUBLIC \"-//W3C//DTD SVG 1.1//EN\" \"http://www.w3.org/Graphics/SVG/1.1/DTD/svg11.dtd\">\n<svg xmlns=\"http://www.w3.org/2000/svg\" version=\"1.1\" viewBox=\"0 0 8 8\" width=\"8\" height=\"8\" stroke=\"none\">\n\t<rect width=\"100%\" height=\"100%\" fill=\"#FFFFFF\"/>\n\t<path d=\"M2,2h2v2h-2z M4,4h2v2h-2z\" fill=\"#000000\"/>\n</svg>\n" : String).data := by
  refine ⟨(c6_svg_deterministic sampleQr 1 2).1, ?_⟩
  exact (c6_svg_deterministic sampleQr 1 2).2 _ (by decide)

/-- Claim C7: the console renderer prints the matrix line by line with
each module as two identical glyphs, two block characters for dark and
two spaces for light, inside a quiet-zone border of exactly 4 modules on
every side (plus the final empty line of the source). -/
theorem c7_text_art (qr : QrCode) :
    print_qr qr =
      ((List.range (qr.size + 8)).map (fun (r : Nat) =>
        String.join ((List.range (qr.size + 8)).map (fun (c : Nat) =>
          if 4 ≤ r ∧ r < qr.size + 4 ∧ 4 ≤ c ∧ c < qr.size + 4 ∧
              qr.module (c - 4) (r - 4) = true then "██" else "  ")))) ++ [""] :=
  print_qr_spec qr

/-- Claim C8 counterexample: border 0 and scale factor 2 to the 31
(reachable from the command line, where a negative i32 scale flag is
cast to u32) pass validation, but the u32 product img_size * scale
wraps to 0 in a release build (a debug build panics at that same
multiplication), so the image handed to the save step is 0 pixels
square, not the claimed (size + 2 * border) * scale square; in no
profile is an image of the claimed size produced. -/
theorem c8_png_rendering_cex :
    (0 : Int) ≤ 0 ∧ (1 : Nat) ≤ 2147483648 ∧
    (write_to_png_scaled sampleQr 0 2147483648 "qrcode.png").toOption.map Image.width =
      some 0 ∧
    (sampleQr.size + 2 * (0 : Int).toNat) * 2147483648 ≠ 0 := by
  refine ⟨by decide, by decide, rfl, by decide⟩

/-- Claim C8, amended: provided size + 2 * border fits in i32 and
(size + 2 * border) * scale fits in u32, the PNG renderer builds a
white single-channel buffer of side size + 2 * border, paints exactly
the dark modules black, and upsamples it by the integer scale factor
with nearest-neighbour sampling: the written image is a square of side
(size + 2 * border) * scale whose pixel (A, B) is black exactly when
the module at (A / scale - border, B / scale - border) is dark; with
border 0 and scale 1 the image is exactly size pixels square.  Beyond
those bounds the unchecked i32/u32 arithmetic wraps (release) or panics
(debug) and no image of the claimed size is produced. -/
theorem c8_png_rendering (qr : QrCode) (border : Int) (scale_factor : Nat)
    (file_path : String) (hb : 0 ≤ border) (hs : 1 ≤ scale_factor)
    (hsz : (qr.size : Int) + 2 * border ≤ i32Max)
    (hu : (qr.size + 2 * border.toNat) * scale_factor < 4294967296) :
    ∃ img, write_to_png_scaled qr border scale_factor file_path = Except.ok img ∧
      img.width = (qr.size + 2 * border.toNat) * scale_factor ∧
      img.height = (qr.size + 2 * border.toNat) * scale_factor ∧
      (∀ A B : Nat, A < img.width → B < img.height →
        img.pixel A B =
          (if qr.get_module (((A / scale_factor : Nat) : Int) - (border.toNat : Int))
              (((B / scale_factor : Nat) : Int) - (border.toNat : Int)) = true
            then 0 else 255)) ∧
      (border = 0 → scale_factor = 1 → img.width = qr.size ∧ img.height = qr.size) := by
  obtain ⟨img, h1, h2, h3, h4⟩ :=
    write_to_png_scaled_spec qr border scale_factor file_path hb hs hsz hu
  refine ⟨img, h1, h2, h3, h4, ?_⟩
  intro hb0 hs1
  constructor
  · rw [h2, hb0, hs1]; simp
  · rw [h3, hb0, hs1]; simp

/-- Claim C8 witness: the renderer evaluated on the sample matrix with
border 1 and scale 2. -/
theorem c8_png_rendering_witness :
    (0 : Int) ≤ 1 ∧ (1 : Nat) ≤ 2 ∧
    ((sampleQr.size : Int) + 2 * 1) ≤ i32Max ∧
    (sampleQr.size + 2 * (1 : Int).toNat) * 2 < 4294967296 ∧
    (∃ img, write_to_png_scaled sampleQr 1 2 "qrcode.png" = Except.ok img ∧
      img.width = (sampleQr.size + 2 * (1 : Int).toNat) * 2 ∧
      img.height = (sampleQr.size + 2 * (1 : Int).toNat) * 2 ∧
      (∀ A B : Nat, A < img.width → B < img.height →
        img.pixel A B =
          (if sampleQr.get_module (((A / 2 : Nat) : Int) - ((1 : Int).toNat : Int))
              (((B / 2 : Nat) : Int) - ((1 : Int).toNat : Int)) = true
            then 0 else 255)) ∧
      ((1 : Int) = 0 → (2 : Nat) = 1 →
        img.width = sampleQr.size ∧ img.height = sampleQr.size)) :=
  ⟨by decide, by decide, by decide, by decide,
    c8_png_rendering sampleQr 1 2 "qrcode.png" (by decide) (by decide)
      (by decide) (by decide)⟩

/-- Claim C9: whenever the ECC flag parses, input acquisition succeeds
and the encode capability rejects the text (too long for the chosen
level), the encoder main reports the failure on the error stream and
returns a normal Ok exit, producing no rendering output at all. -/
theorem c9_encode_failure_clean (enc : String → QrCodeEcc → Except String QrCode)
    (env : Env) (args : Cli) (ecc : QrCodeEcc) (text e : String) (msgs : List String)
    (hecc : parseEcc args.ecc = some ecc)
    (hread : read_input env args.input = (Except.ok text, msgs))
    (henc : enc text ecc = Except.error e) :
    encoderMain enc env args =
      ⟨ExitKind.ok, msgs ++ ["Failed to generate QR code: " ++ e], [], none⟩ := by
  unfold encoderMain
  simp only [hecc, hread, henc]

/-- Claim C9 witness: a failing encode capability on a concrete piped
run. -/
theorem c9_encode_failure_clean_witness :
    parseEcc "M" = some QrCodeEcc.Medium ∧
    read_input envPiped none = (Except.ok "PIPED", []) ∧
    encodeFails "PIPED" QrCodeEcc.Medium = Except.error "data too long" ∧
    encoderMain encodeFails envPiped ⟨"M", none, OutputType.TXT, "qrcode.png", 4, 10⟩ =
      ⟨ExitKind.ok, [] ++ ["Failed to generate QR code: " ++ "data too long"], [],
        none⟩ := by
  refine ⟨rfl, rfl, rfl, ?_⟩
  exact c9_encode_failure_clean encodeFails envPiped
    ⟨"M", none, OutputType.TXT, "qrcode.png", 4, 10⟩ QrCodeEcc.Medium
    "PIPED" "data too long" [] rfl rfl rfl

/-- Claim C10: an ECC flag whose lowercase form is none of l, m, q, h
makes the encoder main print the diagnostic and return Ok, and the
outcome is identical under any two environments: no input is read from
the file system or the standard input. -/
theorem c10_invalid_ecc (enc : String → QrCodeEcc → Except String QrCode)
    (env env2 : Env) (args : Cli)
    (h : strToLower args.ecc ≠ "l" ∧ strToLower args.ecc ≠ "m" ∧
      strToLower args.ecc ≠ "q" ∧ strToLower args.ecc ≠ "h") :
    encoderMain enc env args =
      ⟨ExitKind.ok, ["Invalid error correction level. Use L, M, Q, or H."], [], none⟩ ∧
    encoderMain enc env args = encoderMain enc env2 args := by
  have hp : parseEcc args.ecc = none := by
    unfold parseEcc
    split <;> simp_all
  unfold encoderMain
  rw [hp]
  exact ⟨rfl, rfl⟩

/-- Claim C10 witness: the flag x on two different environments. -/
theorem c10_invalid_ecc_witness :
    (strToLower "x" ≠ "l" ∧ strToLower "x" ≠ "m" ∧
      strToLower "x" ≠ "q" ∧ strToLower "x" ≠ "h") ∧
    encoderMain encodeConst envPiped ⟨"x", none, OutputType.TXT, "qrcode.png", 4, 10⟩ =
      ⟨ExitKind.ok, ["Invalid error correction level. Use L, M, Q, or H."], [], none⟩ ∧
    encoderMain encodeConst envPiped ⟨"x", none, OutputType.TXT, "qrcode.png", 4, 10⟩ =
      encoderMain encodeConst envTerminal
        ⟨"x", none, OutputType.TXT, "qrcode.png", 4, 10⟩ := by
  have h := c10_invalid_ecc encodeConst envPiped envTerminal
    ⟨"x", none, OutputType.TXT, "qrcode.png", 4, 10⟩
    ⟨by decide, by decide, by decide, by decide⟩
  exact ⟨⟨by decide, by decide, by decide, by decide⟩, h.1, h.2⟩

end QrGen
